import Mathlib

/-!
Shallow embedding of the staged fine-tuning driver found in
`examples/vision/ipynb/image_classification_efficientnet_fine_tuning.ipynb`.

The notebook's state is a Keras model: an ordered list of layers, each with a
`name` string and a `trainable` flag, plus a compiled optimizer configuration.
The embedding mirrors the three pieces of logic the notebook owns:

* `build_model` — input/augmentation layers, the pretrained backbone (whose
  layer list is a parameter here, since the EfficientNetB0 internals live in
  the external framework), a freeze loop over every layer of the backbone
  model (which, because the backbone is built on `input_tensor=x`, also spans
  the preprocessing layers), then the new head
  (`avg_pool` → batch normalization → `top_dropout` → `pred` dense softmax,
  with `Dense(100, ...)` written literally in the source), compiled with
  `SGD(learning_rate=0.2, momentum=0.1, nesterov=True)`.
  Auto-generated Keras layer names (`input_1`, `random_flip`,
  `random_contrast`, `resizing`, `batch_normalization`) are framework
  defaults; none of them contains the substring `"bn"`.
* `unfreeze_model` — for each layer, if `"bn" in l.name` the layer is only
  printed and left untouched, otherwise `l.trainable = True`; then the model
  is recompiled with `SGD(learning_rate=0.005)` (framework defaults:
  momentum 0, nesterov off).
* dataset batching with `drop_remainder=True` (batch size 64), and the
  TPU-strategy selection `try/except ValueError` block.

Learning rates are embedded as exact rationals (0.2 = 1/5, 0.1 = 1/10,
0.005 = 1/200); softmax is idealized over the reals.
-/

/-- A prefix test on character lists: true when the first list is an initial
segment of the second. -/
def listStartsWith : List Char → List Char → Bool
  | [], _ => true
  | _ :: _, [] => false
  | a :: as, b :: bs => a == b && listStartsWith as bs

/-- Occurrence of `pat` as a contiguous run inside a character list: the model
of the Python substring test `pat in s`. -/
def listHasSub (pat : List Char) : List Char → Bool
  | [] => listStartsWith pat []
  | c :: rest => listStartsWith pat (c :: rest) || listHasSub pat rest

/-- The Python string-membership test `pat in s`. -/
def strIn (pat s : String) : Bool := listHasSub pat.toList s.toList

/-- The mode with which `RandomFlip()` flips when called with no argument, as
the source does: the framework default of
`tf.keras.layers.experimental.preprocessing.RandomFlip` in the pinned
tensorflow 2.3 is `"horizontal_and_vertical"`, not `"horizontal"`. -/
def RANDOM_FLIP_DEFAULT_MODE : String := "horizontal_and_vertical"

/-- The kind of a Keras layer, as far as the notebook observes it. -/
inductive LayerKind where
  | inputLayer (shape : List Nat)
  | randomFlip (mode : String)
  | randomContrast (factor : ℚ)
  | resizing (height width : Nat) (interpolation : String)
  | globalAveragePooling2D
  | batchNormalization
  | dropout (rate : ℚ)
  | dense (units : Nat) (activation : String)
  deriving DecidableEq

/-- A Keras layer as the notebook sees it: a kind, a name, and the mutable
`trainable` flag. -/
structure Layer where
  kind : LayerKind
  name : String
  trainable : Bool
  deriving DecidableEq

/-- The SGD optimizer configuration used by `model.compile`. -/
structure SGDConfig where
  learning_rate : ℚ
  momentum : ℚ
  nesterov : Bool
  deriving DecidableEq

/-- A compiled Keras model: ordered layers plus the optimizer it was last
compiled with. -/
structure Model where
  layers : List Layer
  optimizer : SGDConfig
  deriving DecidableEq

/-- Source: `IMG_SIZE = 224` (determined by the EfficientNetB0 variant). -/
def IMG_SIZE : Nat := 224

/-- Source: `batch_size = 64`. -/
def batch_size : Nat := 64

/-- Source: `NUM_CLASSES = 100`. -/
def NUM_CLASSES : Nat := 100

/-- One iteration of the freeze loop `l.trainable = False`. -/
def freezeLayer (l : Layer) : Layer := { l with trainable := false }

/-- The loop `for l in model.layers: l.trainable = False` in `build_model`. -/
def freezeAll (ls : List Layer) : List Layer := ls.map freezeLayer

/-- The input and augmentation layers built in `build_model`:
`Input(shape=(32, 32, 3))`, `RandomFlip()`, `RandomContrast(0.1)`,
`Resizing(IMG_SIZE, IMG_SIZE, interpolation="bilinear")`, with the default
Keras auto-generated names. -/
def preprocessing_layers : List Layer :=
  [{ kind := LayerKind.inputLayer [32, 32, 3], name := "input_1", trainable := true },
   { kind := LayerKind.randomFlip RANDOM_FLIP_DEFAULT_MODE, name := "random_flip", trainable := true },
   { kind := LayerKind.randomContrast ((1 : ℚ)/10), name := "random_contrast", trainable := true },
   { kind := LayerKind.resizing IMG_SIZE IMG_SIZE "bilinear", name := "resizing", trainable := true }]

/-- The rebuilt top from `build_model`: `GlobalAveragePooling2D(name="avg_pool")`,
`BatchNormalization()` (auto-named `batch_normalization`),
`Dropout(0.2, name="top_dropout")`, `Dense(100, activation="softmax", name="pred")`.
The dense width `100` is a literal in the source. -/
def head_layers : List Layer :=
  [{ kind := LayerKind.globalAveragePooling2D, name := "avg_pool", trainable := true },
   { kind := LayerKind.batchNormalization, name := "batch_normalization", trainable := true },
   { kind := LayerKind.dropout ((1 : ℚ)/5), name := "top_dropout", trainable := true },
   { kind := LayerKind.dense 100 "softmax", name := "pred", trainable := true }]

/-- The optimizer compiled in `build_model`:
`SGD(learning_rate=0.2, momentum=0.1, nesterov=True)`. -/
def build_sgd : SGDConfig :=
  { learning_rate := (1 : ℚ)/5, momentum := (1 : ℚ)/10, nesterov := true }

/-- The optimizer compiled in `unfreeze_model`: `SGD(learning_rate=0.005)`
with the framework defaults momentum 0 and nesterov off. -/
def finetune_sgd : SGDConfig :=
  { learning_rate := (1 : ℚ)/200, momentum := 0, nesterov := false }

/-- The notebook's `build_model(n_classes)`. The backbone layer list is a
parameter (the EfficientNetB0 internals are external framework code); because
the backbone model is created with `input_tensor=x`, its `.layers` — and hence
the freeze loop — span the preprocessing layers as well. The head is appended
afterwards, trainable by default. `n_classes` is accepted but, as in the
source, never used: the final dense layer is `Dense(100, ...)` verbatim. -/
def build_model (backbone : List Layer) (n_classes : Nat) : Model :=
  { layers := freezeAll (preprocessing_layers ++ backbone) ++ head_layers,
    optimizer := build_sgd }

/-- One iteration of the loop in `unfreeze_model`: a layer whose name
contains `"bn"` is only printed ("is staying untrainable") and not written;
every other layer gets `l.trainable = True`. -/
def unfreeze_layer (l : Layer) : Layer :=
  if strIn "bn" l.name then l else { l with trainable := true }

/-- The notebook's `unfreeze_model(model)`: the per-layer loop above followed
by recompilation with `SGD(learning_rate=0.005)`. -/
def unfreeze_model (m : Model) : Model :=
  { layers := m.layers.map unfreeze_layer, optimizer := finetune_sgd }

/-- Fuel-indexed chunking behind `Dataset.batch(batch_size, drop_remainder=True)`:
emit a full batch of `b` elements while at least `b` remain, stop (dropping
the remainder) otherwise. `fuel` bounds the number of emitted batches. -/
def batchChunks {α : Type} (b : Nat) : Nat → List α → List (List α)
  | 0, _ => []
  | fuel + 1, xs =>
    if b ≤ xs.length then xs.take b :: batchChunks b fuel (xs.drop b) else []

/-- `ds.batch(batch_size=b, drop_remainder=True)` on an in-memory dataset:
only full batches of size `b` are produced. -/
def batchDropRemainder {α : Type} (b : Nat) (xs : List α) : List (List α) :=
  batchChunks b xs.length xs

/-- Python exceptions, as far as the strategy-selection cell distinguishes
them: `ValueError` (the one caught) versus anything else. -/
inductive PyError where
  | valueError (msg : String)
  | otherError (msg : String)
  deriving DecidableEq

/-- The result of successful TPU cluster resolution: the discovered workers. -/
structure TPUInfo where
  workers : List String
  deriving DecidableEq

/-- The distribution strategy chosen at startup. -/
inductive Strategy where
  | tpuStrategy (tpu : TPUInfo)
  | mirroredStrategy
  deriving DecidableEq

/-- The `try/except ValueError` strategy-selection cell. The input is the
outcome of TPU cluster resolution; the output pairs the chosen strategy with
the lines printed. On success the discovered workers are printed and
`TPUStrategy` is chosen; on `ValueError` the fallback message is printed and
`MirroredStrategy` is chosen; any other exception propagates uncaught. -/
def selectStrategy : Except PyError TPUInfo → Except PyError (Strategy × List String)
  | .ok tpu => .ok (Strategy.tpuStrategy tpu, tpu.workers)
  | .error (.valueError _) =>
      .ok (Strategy.mirroredStrategy,
        ["Not connected to a TPU runtime. Using CPU/GPU strategy"])
  | .error (.otherError msg) => .error (.otherError msg)

/-- The softmax activation of the final dense layer, idealized over the
reals. -/
noncomputable def softmax (xs : List ℝ) : List ℝ :=
  xs.map (fun x => Real.exp x / (xs.map Real.exp).sum)

/-- Every layer emitted by the freeze loop has `trainable = false`. -/
lemma mem_freezeAll {l : Layer} {ls : List Layer} (h : l ∈ freezeAll ls) :
    l.trainable = false := by
  simp only [freezeAll, List.mem_map] at h
  obtain ⟨l', _, rfl⟩ := h
  rfl

/-- The unfreeze loop never renames a layer. -/
lemma unfreeze_layer_name (l : Layer) : (unfreeze_layer l).name = l.name := by
  unfold unfreeze_layer
  split <;> rfl

/-- A layer whose name contains `"bn"` is left untouched by the unfreeze
loop. -/
lemma unfreeze_layer_of_bn {l : Layer} (h : strIn "bn" l.name = true) :
    unfreeze_layer l = l := by
  simp [unfreeze_layer, h]

/-- C1: For every model produced by `build_model` (in which all backbone
layers start non-trainable), after `unfreeze_model` is applied every layer
whose name contains the normalization marker substring `"bn"` has its
`trainable` flag equal to `false`. -/
theorem unfreeze_keeps_bn_frozen (backbone : List Layer) (n_classes : Nat) (l : Layer)
    (hmem : l ∈ (unfreeze_model (build_model backbone n_classes)).layers)
    (hbn : strIn "bn" l.name = true) : l.trainable = false := by
  have hmem' : l ∈ (freezeAll (preprocessing_layers ++ backbone) ++ head_layers).map unfreeze_layer := hmem
  rw [List.map_append, List.mem_append] at hmem'
  rcases hmem' with h | h
  · rw [List.mem_map] at h
    obtain ⟨l', hl', rfl⟩ := h
    rw [unfreeze_layer_name] at hbn
    rw [unfreeze_layer_of_bn hbn]
    exact mem_freezeAll hl'
  · rw [List.mem_map] at h
    obtain ⟨l', hl', rfl⟩ := h
    simp only [head_layers, List.mem_cons, List.not_mem_nil, or_false] at hl'
    rcases hl' with rfl | rfl | rfl | rfl <;> exact absurd hbn (by decide)

/-- C1 witness: a backbone batch-normalization layer named `block1a_bn` is
frozen by `build_model` and stays frozen after `unfreeze_model`. -/
theorem unfreeze_keeps_bn_frozen_witness :
    ({ kind := LayerKind.batchNormalization, name := "block1a_bn", trainable := false } : Layer) ∈
      (unfreeze_model (build_model
        [{ kind := LayerKind.batchNormalization, name := "block1a_bn", trainable := true }] 100)).layers ∧
    strIn "bn" "block1a_bn" = true ∧
    ({ kind := LayerKind.batchNormalization, name := "block1a_bn", trainable := false } : Layer).trainable = false :=
  ⟨by decide, by decide,
    unfreeze_keeps_bn_frozen
      [{ kind := LayerKind.batchNormalization, name := "block1a_bn", trainable := true }] 100
      { kind := LayerKind.batchNormalization, name := "block1a_bn", trainable := false }
      (by decide) (by decide)⟩

/-- C2: For every model, after `unfreeze_model` every layer whose name does
not contain `"bn"` has its `trainable` flag equal to `true`. -/
theorem unfreeze_sets_non_bn_trainable (m : Model) (l : Layer)
    (hmem : l ∈ (unfreeze_model m).layers)
    (hbn : strIn "bn" l.name = false) : l.trainable = true := by
  simp only [unfreeze_model, List.mem_map] at hmem
  obtain ⟨l', _, rfl⟩ := hmem
  by_cases h : strIn "bn" l'.name = true
  · rw [unfreeze_layer_of_bn h] at hbn
    rw [h] at hbn
    cases hbn
  · simp only [unfreeze_layer, Bool.not_eq_true] at h
    simp [unfreeze_layer, h]

/-- C2 witness: a frozen dense layer named `pred` becomes trainable after
`unfreeze_model`. -/
theorem unfreeze_sets_non_bn_trainable_witness :
    ({ kind := LayerKind.dense 100 "softmax", name := "pred", trainable := true } : Layer) ∈
      (unfreeze_model
        { layers := [{ kind := LayerKind.dense 100 "softmax", name := "pred", trainable := false }],
          optimizer := build_sgd }).layers ∧
    strIn "bn" "pred" = false ∧
    ({ kind := LayerKind.dense 100 "softmax", name := "pred", trainable := true } : Layer).trainable = true :=
  ⟨by decide, by decide,
    unfreeze_sets_non_bn_trainable
      { layers := [{ kind := LayerKind.dense 100 "softmax", name := "pred", trainable := false }],
        optimizer := build_sgd }
      { kind := LayerKind.dense 100 "softmax", name := "pred", trainable := true }
      (by decide) (by decide)⟩

/-- C3: Immediately after `build_model` constructs the model, every layer of
the pretrained backbone (together with the preprocessing layers the freeze
loop also spans) has its `trainable` flag equal to `false`: every layer in
the segment of the model preceding the new head is non-trainable. -/
theorem build_model_backbone_frozen (backbone : List Layer) (n_classes : Nat) (l : Layer)
    (hmem : l ∈ (build_model backbone n_classes).layers.take
      (preprocessing_layers ++ backbone).length) : l.trainable = false := by
  have hlen : (preprocessing_layers ++ backbone).length =
      (freezeAll (preprocessing_layers ++ backbone)).length := by
    simp [freezeAll]
  have hmem' : l ∈ (freezeAll (preprocessing_layers ++ backbone) ++ head_layers).take
      (preprocessing_layers ++ backbone).length := hmem
  rw [hlen, List.take_left] at hmem'
  exact mem_freezeAll hmem'

/-- C3 witness: with a one-layer backbone, the backbone layer named `stem_bn`
sits in the pre-head segment of the built model and is non-trainable. -/
theorem build_model_backbone_frozen_witness :
    ({ kind := LayerKind.batchNormalization, name := "stem_bn", trainable := false } : Layer) ∈
      (build_model [{ kind := LayerKind.batchNormalization, name := "stem_bn", trainable := true }] 100).layers.take
        (preprocessing_layers ++ ([{ kind := LayerKind.batchNormalization, name := "stem_bn", trainable := true }] : List Layer)).length ∧
    ({ kind := LayerKind.batchNormalization, name := "stem_bn", trainable := false } : Layer).trainable = false :=
  ⟨by decide,
    build_model_backbone_frozen
      [{ kind := LayerKind.batchNormalization, name := "stem_bn", trainable := true }] 100
      { kind := LayerKind.batchNormalization, name := "stem_bn", trainable := false }
      (by decide)⟩

/-- C10: `unfreeze_model` never writes the `trainable` flag of a layer whose
name contains `"bn"`: such a layer is returned unchanged at its position, so
its flag after the call equals its flag before. -/
theorem unfreeze_frame_bn (m : Model) (i : Nat) (l : Layer)
    (hget : m.layers[i]? = some l) (hbn : strIn "bn" l.name = true) :
    (unfreeze_model m).layers[i]? = some l := by
  have : (unfreeze_model m).layers[i]? = (m.layers.map unfreeze_layer)[i]? := rfl
  rw [this, List.getElem?_map, hget]
  simp [unfreeze_layer_of_bn hbn]

/-- C10 witness: a layer named `stem_bn` that is trainable before
`unfreeze_model` is still the same (trainable) layer at position 0 after. -/
theorem unfreeze_frame_bn_witness :
    ({ layers := [{ kind := LayerKind.batchNormalization, name := "stem_bn", trainable := true }],
       optimizer := build_sgd } : Model).layers[0]? =
      some { kind := LayerKind.batchNormalization, name := "stem_bn", trainable := true } ∧
    strIn "bn" "stem_bn" = true ∧
    (unfreeze_model
      { layers := [{ kind := LayerKind.batchNormalization, name := "stem_bn", trainable := true }],
        optimizer := build_sgd }).layers[0]? =
      some { kind := LayerKind.batchNormalization, name := "stem_bn", trainable := true } :=
  ⟨by decide, by decide,
    unfreeze_frame_bn
      { layers := [{ kind := LayerKind.batchNormalization, name := "stem_bn", trainable := true }],
        optimizer := build_sgd } 0
      { kind := LayerKind.batchNormalization, name := "stem_bn", trainable := true }
      (by decide) (by decide)⟩

/-- With positive batch size and enough fuel, the chunker emits exactly
`⌊n / b⌋` batches. -/
lemma batchChunks_length {α : Type} {b : Nat} (hb : 0 < b) :
    ∀ (fuel : Nat) (xs : List α), xs.length ≤ fuel →
      (batchChunks b fuel xs).length = xs.length / b := by
  intro fuel
  induction fuel with
  | zero =>
    intro xs hx
    simp [batchChunks, Nat.le_zero.mp hx]
  | succ fuel ih =>
    intro xs hx
    by_cases h : b ≤ xs.length
    · have hdrop : (xs.drop b).length ≤ fuel := by
        rw [List.length_drop]
        omega
      simp only [batchChunks, if_pos h, List.length_cons, ih (xs.drop b) hdrop,
        List.length_drop]
      rw [Nat.div_eq_sub_div hb h]
    · simp [batchChunks, h, Nat.div_eq_of_lt (Nat.lt_of_not_le h)]

/-- Every batch the chunker emits has exactly `b` elements. -/
lemma batchChunks_mem_length {α : Type} {b : Nat} :
    ∀ (fuel : Nat) (xs c : List α), c ∈ batchChunks b fuel xs → c.length = b := by
  intro fuel
  induction fuel with
  | zero =>
    intro xs c hc
    simp [batchChunks] at hc
  | succ fuel ih =>
    intro xs c hc
    by_cases h : b ≤ xs.length
    · simp only [batchChunks, if_pos h, List.mem_cons] at hc
      rcases hc with rfl | hc
      · rw [List.length_take]
        omega
      · exact ih _ _ hc
    · simp [batchChunks, h] at hc

/-- C4: batching with `drop_remainder = true` and positive batch size `b`
emits exactly `⌊n / b⌋` batches on a dataset of `n` examples, and every
emitted batch has exactly `b` elements. -/
theorem batch_drop_remainder_spec {α : Type} (xs : List α) (b : Nat) (hb : 0 < b) :
    (batchDropRemainder b xs).length = xs.length / b ∧
      ∀ c ∈ batchDropRemainder b xs, c.length = b :=
  ⟨batchChunks_length hb xs.length xs (Nat.le_refl _),
   fun c hc => batchChunks_mem_length xs.length xs c hc⟩

/-- C4 witness: a dataset of 97 examples batched with batch size 64 yields
exactly 1 batch, of 64 elements. -/
theorem batch_drop_remainder_spec_witness :
    0 < 64 ∧ (batchDropRemainder 64 (List.range 97)).length = 1 ∧
      ∀ c ∈ batchDropRemainder 64 (List.range 97), c.length = 64 := by
  refine ⟨by decide, ?_, (batch_drop_remainder_spec (List.range 97) 64 (by decide)).2⟩
  have h := (batch_drop_remainder_spec (List.range 97) 64 (by decide)).1
  simpa using h

/-- C5: during startup strategy selection, successful accelerator-cluster
resolution prints the discovered workers and selects the TPU strategy; a
value error selects the local mirrored strategy (with the fallback message
printed); any other exception type is not caught and propagates. -/
theorem selectStrategy_spec (r : Except PyError TPUInfo) :
    (∀ tpu : TPUInfo, r = Except.ok tpu →
        selectStrategy r = Except.ok (Strategy.tpuStrategy tpu, tpu.workers)) ∧
    (∀ msg : String, r = Except.error (PyError.valueError msg) →
        selectStrategy r = Except.ok (Strategy.mirroredStrategy,
          ["Not connected to a TPU runtime. Using CPU/GPU strategy"])) ∧
    (∀ msg : String, r = Except.error (PyError.otherError msg) →
        selectStrategy r = Except.error (PyError.otherError msg)) := by
  refine ⟨?_, ?_, ?_⟩ <;> rintro x rfl <;> rfl

/-- C5 witness: the three branches at concrete resolution outcomes. -/
theorem selectStrategy_spec_witness :
    selectStrategy (Except.ok ⟨["10.0.0.1:8470"]⟩) =
      Except.ok (Strategy.tpuStrategy ⟨["10.0.0.1:8470"]⟩, ["10.0.0.1:8470"]) ∧
    selectStrategy (Except.error (PyError.valueError "no TPU")) =
      Except.ok (Strategy.mirroredStrategy,
        ["Not connected to a TPU runtime. Using CPU/GPU strategy"]) ∧
    selectStrategy (Except.error (PyError.otherError "KeyError")) =
      Except.error (PyError.otherError "KeyError") :=
  ⟨(selectStrategy_spec _).1 _ rfl, (selectStrategy_spec _).2.1 _ rfl,
   (selectStrategy_spec _).2.2 _ rfl⟩

/-- The last layer of every built model is the `pred` dense softmax layer
with 100 units. -/
lemma build_model_final_layer (backbone : List Layer) (n : Nat) :
    (build_model backbone n).layers.getLast? =
      some { kind := LayerKind.dense 100 "softmax", name := "pred", trainable := true } := by
  have h : (build_model backbone n).layers =
      freezeAll (preprocessing_layers ++ backbone) ++ head_layers := rfl
  rw [h, List.getLast?_append]
  rfl

/-- The sum of exponentials over a nonempty list is positive. -/
lemma exp_sum_pos (xs : List ℝ) (hx : xs ≠ []) : 0 < (xs.map Real.exp).sum := by
  cases xs with
  | nil => exact absurd rfl hx
  | cons a t =>
    simp only [List.map_cons, List.sum_cons]
    have ht : 0 ≤ (t.map Real.exp).sum :=
      List.sum_nonneg fun x hxm => by
        obtain ⟨y, _, rfl⟩ := List.mem_map.mp hxm
        exact (Real.exp_pos y).le
    have ha := Real.exp_pos a
    linarith

/-- Pointwise division distributes over the sum of a mapped list. -/
lemma sum_map_exp_div (xs : List ℝ) (s : ℝ) :
    (xs.map fun x => Real.exp x / s).sum = (xs.map Real.exp).sum / s := by
  induction xs with
  | nil => simp
  | cons a t ih => simp [ih, add_div]

/-- C6: for `build_model` on 100 classes, the final layer of the attached
head is the dense softmax layer with 100 output units, and the softmax
activation maps any nonempty 100-entry input row to a 100-way probability
vector summing to 1 (exactly, in the real-number idealization of the
floating-point computation). -/
theorem build_head_softmax_distribution (backbone : List Layer) (xs : List ℝ)
    (hne : xs ≠ []) (hlen : xs.length = 100) :
    (build_model backbone 100).layers.getLast? =
      some { kind := LayerKind.dense 100 "softmax", name := "pred", trainable := true } ∧
    (softmax xs).length = 100 ∧ (softmax xs).sum = 1 := by
  refine ⟨build_model_final_layer backbone 100, ?_, ?_⟩
  · simp [softmax, hlen]
  · unfold softmax
    rw [sum_map_exp_div]
    exact div_self (ne_of_gt (exp_sum_pos xs hne))

/-- C6 witness: the uniform input row of 100 zeros. -/
theorem build_head_softmax_distribution_witness :
    (List.replicate 100 (0 : ℝ)) ≠ [] ∧ (List.replicate 100 (0 : ℝ)).length = 100 ∧
    ((build_model [] 100).layers.getLast? =
        some { kind := LayerKind.dense 100 "softmax", name := "pred", trainable := true } ∧
      (softmax (List.replicate 100 (0 : ℝ))).length = 100 ∧
      (softmax (List.replicate 100 (0 : ℝ))).sum = 1) :=
  ⟨by simp, by simp,
    build_head_softmax_distribution [] (List.replicate 100 (0 : ℝ)) (by simp) (by simp)⟩

/-- C7 counterexample: the claim as stated fails on the code — in the model
built over the empty backbone, the augmentation pipeline does not begin with
a flip restricted to the horizontal mode, because the source calls
`RandomFlip()` with no mode and the framework default is
`"horizontal_and_vertical"`. -/
theorem build_flip_not_horizontal_counterexample :
    ¬ (((build_model [] 100).layers.take 4).map Layer.kind =
      [LayerKind.inputLayer [32, 32, 3], LayerKind.randomFlip "horizontal",
       LayerKind.randomContrast ((1 : ℚ)/10),
       LayerKind.resizing IMG_SIZE IMG_SIZE "bilinear"]) := by decide

/-- C7 (amended): `build_model` places, in order before the backbone, the
input layer followed by a random flip in the framework's default mode
(horizontal and vertical, since `RandomFlip()` is called with no mode
argument), a random contrast adjustment (factor 0.1), and a deterministic
bilinear resize to the backbone's required resolution `IMG_SIZE = 224`. -/
theorem build_preprocessing_pipeline (backbone : List Layer) (n_classes : Nat) :
    ((build_model backbone n_classes).layers.take 4).map Layer.kind =
      [LayerKind.inputLayer [32, 32, 3],
       LayerKind.randomFlip RANDOM_FLIP_DEFAULT_MODE,
       LayerKind.randomContrast ((1 : ℚ)/10),
       LayerKind.resizing IMG_SIZE IMG_SIZE "bilinear"] := rfl

/-- C8: the learning rate compiled in `build_model` for head training
(0.2 = 1/5) is strictly greater than the learning rate compiled in
`unfreeze_model` for fine-tuning (0.005 = 1/200), as exact rationals. -/
theorem phase2_lr_gt_phase3_lr (backbone : List Layer) (n_classes : Nat) (m : Model) :
    (build_model backbone n_classes).optimizer.learning_rate = (1 : ℚ)/5 ∧
    (unfreeze_model m).optimizer.learning_rate = (1 : ℚ)/200 ∧
    (unfreeze_model m).optimizer.learning_rate <
      (build_model backbone n_classes).optimizer.learning_rate :=
  ⟨rfl, rfl, by norm_num [build_model, unfreeze_model, build_sgd, finetune_sgd]⟩

/-- C9: `build_model` ignores its `n_classes` argument: the built model is
the same for every argument value, and its final dense layer always has
exactly 100 output units. -/
theorem build_model_ignores_n_classes (backbone : List Layer) (n m : Nat) :
    build_model backbone n = build_model backbone m ∧
    (build_model backbone n).layers.getLast? =
      some { kind := LayerKind.dense 100 "softmax", name := "pred", trainable := true } :=
  ⟨rfl, build_model_final_layer backbone n⟩
